import Mathlib

/-!
Verification of the interaction core of the Sol radial mind-mapping
interface: the gesture recognizer (`GestureHandler`) and the orbital
interaction engine (`RadialInterface`).

The gesture recognizer performs only ring arithmetic (addition,
subtraction, multiplication, comparison) on pixel coordinates and
millisecond timestamps, apart from `Math.sqrt`; and every square root it
takes is immediately compared against a nonnegative constant threshold
`c`, never stored; since `Math.sqrt s < c ↔ s < c^2` (for `c ≥ 0`), the
embedding compares squared distances against squared thresholds, exactly.
Its state and handlers are embedded over `ℤ` (integer-valued pixels and
milliseconds, on which the recognizer's arithmetic is exact) so all of its
operations are decidable and kernel-evaluable.

The orbital engine stores square roots and angles (`Math.atan2`,
`Math.cos`, `Math.sin`, `Math.PI`) in its state, so it is embedded over
`ℝ`.  A small extended-number type `JsNum` captures IEEE-754 `Infinity`
and `NaN` behaviour of the one division the spec's error-handling section
is about.

JavaScript timer semantics: `setTimeout(f, d)` at wall-clock `t` runs `f`
once at wall-clock `t + d` unless `clearTimeout` is called first; the
embedding stores a pending timer as its deadline and payload, clearing a
timer drops the entry, and firing a timer consumes the entry and emits
(calling `clearTimeout` on an already-fired id is a no-op in JS, so
consuming the entry is behaviourally equivalent to the id lingering).
-/

namespace Sol

/-- A JavaScript runtime error surfacing from a handler (the only kind the
source can raise is a `TypeError` from reading a property of
`null`/`undefined`). -/
inductive JsError where
  | typeError
deriving DecidableEq

/-- A 2D screen position in px (JS `clientX`/`clientY`). -/
structure Pos where
  x : ℤ
  y : ℤ
deriving DecidableEq

/-- Squared euclidean distance between two positions.  The source computes
`Math.sqrt` of this and compares the root against a nonnegative threshold;
the embedding compares this value against the squared threshold. -/
def distSq (p q : Pos) : ℤ :=
  (p.x - q.x) ^ 2 + (p.y - q.y) ^ 2

namespace GH

/-- `DOUBLE_TAP_DELAY = 300` ms. -/
def DOUBLE_TAP_DELAY : ℤ := 300

/-- `LONG_PRESS_DELAY = 500` ms. -/
def LONG_PRESS_DELAY : ℤ := 500

/-- `TAP_THRESHOLD = 10` px. -/
def TAP_THRESHOLD : ℤ := 10

/-- `PINCH_THRESHOLD = 20` px. -/
def PINCH_THRESHOLD : ℤ := 20

/-- The `TouchState` record the recognizer keeps per active contact. -/
structure TouchState where
  id : ℕ
  startX : ℤ
  startY : ℤ
  currentX : ℤ
  currentY : ℤ
  startTime : ℤ
deriving DecidableEq

/-- The recognizer's mutable state (`GestureHandler`'s private fields).
`touches` is the JS `Map` as an insertion-ordered association list.
`tapTimeout` / `longPressTimeout` hold a pending timer's deadline and the
position its callback captured; the long-press payload is `none` when the
callback captured `event.touches[0]` of an empty list (reading
`.clientX` of it would throw when the timer fires). -/
structure GHState where
  touches : List (ℕ × TouchState)
  tapTimeout : Option (ℤ × Pos)
  longPressTimeout : Option (ℤ × Option Pos)
  lastTapTime : ℤ
  lastTapPosition : Pos
deriving DecidableEq

/-- The recognizer's initial state (field initializers of the class). -/
def GHState.init : GHState :=
  { touches := []
    tapTimeout := none
    longPressTimeout := none
    lastTapTime := 0
    lastTapPosition := ⟨0, 0⟩ }

/-- `Map.get`. -/
def mapGet (m : List (ℕ × TouchState)) (k : ℕ) : Option TouchState :=
  (m.find? (fun kv => kv.1 == k)).map (fun kv => kv.2)

/-- `Map.set`: updates in place when the key exists, else appends. -/
def mapSet (m : List (ℕ × TouchState)) (k : ℕ) (v : TouchState) :
    List (ℕ × TouchState) :=
  if (m.find? (fun kv => kv.1 == k)).isSome then
    m.map (fun kv => if kv.1 == k then (k, v) else kv)
  else m ++ [(k, v)]

/-- `Map.delete`. -/
def mapDelete (m : List (ℕ × TouchState)) (k : ℕ) : List (ℕ × TouchState) :=
  m.filter (fun kv => !(kv.1 == k))

/-- `Map.size`. -/
def mapSize (m : List (ℕ × TouchState)) : ℕ := m.length

/-- A semantic gesture event as published by `emitGesture` (the `target`
and `originalEvent` references are DOM plumbing and carry no recognizer
state; the position, deltas and scale are the recognizer's output). -/
inductive Gesture where
  | tap (p : Pos)
  | doubleTap (p : Pos)
  | longPress (p : Pos)
  | pan (p : Pos) (deltaX deltaY : ℤ)
  | pinch (p : Pos) (scale : ℤ)
deriving DecidableEq

/-- `clearTimers()`: cancels both pending timers. -/
def clearTimers (s : GHState) : GHState :=
  { s with tapTimeout := none, longPressTimeout := none }

/-- Fresh `TouchState` for a contact pressed at `p` at time `now`. -/
def newTouch (id : ℕ) (p : Pos) (now : ℤ) : TouchState :=
  { id := id, startX := p.x, startY := p.y,
    currentX := p.x, currentY := p.y, startTime := now }

/-- `startLongPressTimer(event)`: arms the long-press timer with the
position of `event.touches[0]`.  `eventTouches = none` embeds a
`MouseEvent` cast `as any`: a `MouseEvent` has no `touches` property, so
`event.touches[0]` reads index `0` of `undefined` and throws immediately. -/
def startLongPressTimer (now : ℤ) (eventTouches : Option (List (ℕ × Pos)))
    (s : GHState) : Except JsError GHState :=
  match eventTouches with
  | none => .error .typeError
  | some l =>
      let payload := l.head?.map (fun ip => ip.2)
      .ok { s with longPressTimeout := some (now + LONG_PRESS_DELAY, payload) }

/-- `handleTap(touch, event)`: classifies a tap candidate against the
previous one; emits `doubleTap` synchronously, or arms the single-tap
timer for the double-tap window. -/
def handleTap (now : ℤ) (pos : Pos) (s : GHState) : GHState × List Gesture :=
  let timeSinceLastTap := now - s.lastTapTime
  let dsq := distSq pos s.lastTapPosition
  if timeSinceLastTap < DOUBLE_TAP_DELAY ∧ dsq < TAP_THRESHOLD ^ 2 then
    ({ s with tapTimeout := none, lastTapTime := 0 }, [Gesture.doubleTap pos])
  else
    ({ s with tapTimeout := some (now + DOUBLE_TAP_DELAY, pos),
              lastTapTime := now, lastTapPosition := pos }, [])

/-- `processTouchEnd(touch, touchState, event)`: a release within the
movement threshold and long-press delay is a tap candidate. -/
def processTouchEnd (now : ℤ) (releasePos : Pos) (ts : TouchState)
    (s : GHState) : GHState × List Gesture :=
  let dsq := (releasePos.x - ts.startX) ^ 2 + (releasePos.y - ts.startY) ^ 2
  let duration := now - ts.startTime
  if dsq < TAP_THRESHOLD ^ 2 ∧ duration < LONG_PRESS_DELAY then
    handleTap now releasePos s
  else (s, [])

/-- `handleTouchStart`: record each changed touch; one active contact arms
the long-press timer, a second contact cancels all timers. -/
def handleTouchStart (now : ℤ) (changed : List (ℕ × Pos))
    (allTouches : List (ℕ × Pos)) (s : GHState) :
    Except JsError (GHState × List Gesture) := do
  let ts := changed.foldl (fun m cp => mapSet m cp.1 (newTouch cp.1 cp.2 now)) s.touches
  let s1 := { s with touches := ts }
  let s2 ← if mapSize s1.touches == 1
    then startLongPressTimer now (some allTouches) s1
    else pure s1
  let s3 := if mapSize s2.touches == 2 then clearTimers s2 else s2
  pure (s3, [])

/-- `handleSingleTouchMove(event)`: reads `event.touches[0]`, looks the
contact up, and emits `pan` once the displacement from the contact's start
exceeds the movement threshold (cancelling the tap/long-press timers). -/
def handleSingleTouchMove (allTouches : List (ℕ × Pos)) (s : GHState) :
    Except JsError (GHState × List Gesture) :=
  match allTouches.head? with
  | none => .error .typeError
  | some (tid, p) =>
      match mapGet s.touches tid with
      | none => .ok (s, [])
      | some ts =>
          let deltaX := p.x - ts.startX
          let deltaY := p.y - ts.startY
          if deltaX ^ 2 + deltaY ^ 2 > TAP_THRESHOLD ^ 2 then
            .ok (clearTimers s, [Gesture.pan p deltaX deltaY])
          else .ok (s, [])

/-- `handleTouchMove`: update the recorded current position of each known
changed contact, then dispatch on the number of stored contacts.  The
two-contact branch (`handleMultiTouchMove`, the pinch path) is outside
every claim below and outside the states the theorems below quantify over
(at most one stored contact), so the embedding dispatches it as a no-op. -/
def handleTouchMove (changed : List (ℕ × Pos)) (allTouches : List (ℕ × Pos))
    (s : GHState) : Except JsError (GHState × List Gesture) :=
  let tm := changed.foldl (fun m cp =>
      match mapGet m cp.1 with
      | some ts => mapSet m cp.1 { ts with currentX := cp.2.x, currentY := cp.2.y }
      | none => m) s.touches
  let s1 := { s with touches := tm }
  if mapSize s1.touches == 1 then handleSingleTouchMove allTouches s1
  else .ok (s1, [])

/-- One iteration of `handleTouchEnd`'s `forEach` over `changedTouches`:
an unknown identifier is skipped, a known one is classified and deleted. -/
def touchEndOne (now : ℤ) (idp : ℕ × Pos) (acc : GHState × List Gesture) :
    GHState × List Gesture :=
  let (s, out) := acc
  match mapGet s.touches idp.1 with
  | none => (s, out)
  | some ts =>
      let (s2, out2) := processTouchEnd now idp.2 ts s
      ({ s2 with touches := mapDelete s2.touches idp.1 }, out ++ out2)

/-- `handleTouchEnd`: classify and delete each changed contact, then
unconditionally `clearTimers()` — this final call also cancels the
single-tap timer that `handleTap` may have just armed. -/
def handleTouchEnd (now : ℤ) (changed : List (ℕ × Pos)) (s : GHState) :
    GHState × List Gesture :=
  let r := changed.foldl (fun acc idp => touchEndOne now idp acc) (s, [])
  (clearTimers r.1, r.2)

/-- `handleTouchCancel`: discard all contacts and timers, emit nothing. -/
def handleTouchCancel (s : GHState) : GHState × List Gesture :=
  (clearTimers { s with touches := [] }, [])

/-- `handleMouseDown`: stores a synthetic contact with identifier `0`,
then calls `startLongPressTimer(event as any)` — a `MouseEvent` has no
`touches` property, so the timer arming throws on every mousedown (the
exception escapes the listener; the contact stays stored). -/
def handleMouseDown (now : ℤ) (p : Pos) (s : GHState) :
    Except JsError (GHState × List Gesture) := do
  let s1 := { s with touches := mapSet s.touches 0 (newTouch 0 p now) }
  let s2 ← startLongPressTimer now none s1
  pure (s2, [])

/-- `handleMouseMove`: no-op without a stored synthetic contact; else
update its current position and emit `pan` past the movement threshold. -/
def handleMouseMove (p : Pos) (s : GHState) :
    Except JsError (GHState × List Gesture) :=
  match mapGet s.touches 0 with
  | none => .ok (s, [])
  | some ts =>
      let tm := mapSet s.touches 0 { ts with currentX := p.x, currentY := p.y }
      let s1 := { s with touches := tm }
      let deltaX := p.x - ts.startX
      let deltaY := p.y - ts.startY
      if deltaX ^ 2 + deltaY ^ 2 > TAP_THRESHOLD ^ 2 then
        .ok (clearTimers s1, [Gesture.pan p deltaX deltaY])
      else .ok (s1, [])

/-- `handleMouseUp`: no-op without a stored synthetic contact; else a
release within the thresholds is a tap candidate, and the contact is
deleted and `clearTimers()` runs unconditionally (cancelling the
single-tap timer `handleTap` may have just armed). -/
def handleMouseUp (now : ℤ) (p : Pos) (s : GHState) :
    Except JsError (GHState × List Gesture) :=
  match mapGet s.touches 0 with
  | none => .ok (s, [])
  | some ts =>
      let dsq := (p.x - ts.startX) ^ 2 + (p.y - ts.startY) ^ 2
      let duration := now - ts.startTime
      let r := if dsq < TAP_THRESHOLD ^ 2 ∧ duration < LONG_PRESS_DELAY
        then handleTap now p s else (s, [])
      .ok (clearTimers { r.1 with touches := mapDelete r.1.touches 0 }, r.2)

/-- Fire the single-tap timer if its deadline has passed by wall-clock `t`. -/
def fireTap (t : ℤ) (s : GHState) : GHState × List Gesture :=
  match s.tapTimeout with
  | some (d, p) =>
      if d < t then ({ s with tapTimeout := none }, [Gesture.tap p])
      else (s, [])
  | none => (s, [])

/-- Fire the long-press timer if its deadline has passed by wall-clock `t`;
a callback that captured `event.touches[0]` of an empty list throws. -/
def fireLongPress (t : ℤ) (s : GHState) :
    Except JsError (GHState × List Gesture) :=
  match s.longPressTimeout with
  | some (d, pay) =>
      if d < t then
        match pay with
        | some p => .ok ({ s with longPressTimeout := none }, [Gesture.longPress p])
        | none => .error .typeError
      else .ok (s, [])
  | none => .ok (s, [])

/-- Run every timer whose deadline has passed by wall-clock `t` (the JS
event loop runs due timer callbacks before a later input event's
listener). -/
def fireDue (t : ℤ) (s : GHState) : Except JsError (GHState × List Gesture) := do
  let r1 := fireTap t s
  let r2 ← fireLongPress t r1.1
  pure (r2.1, r1.2 ++ r2.2)

/-- A raw input event with its arrival wall-clock time:
`changed` embeds `event.changedTouches`, `allTouches` embeds
`event.touches` (the platform's full current contact list). -/
inductive GHEvent where
  | touchStart (t : ℤ) (changed : List (ℕ × Pos)) (allTouches : List (ℕ × Pos))
  | touchMove (t : ℤ) (changed : List (ℕ × Pos)) (allTouches : List (ℕ × Pos))
  | touchEnd (t : ℤ) (changed : List (ℕ × Pos))
  | touchCancel (t : ℤ)
  | mouseDown (t : ℤ) (p : Pos)
  | mouseMove (t : ℤ) (p : Pos)
  | mouseUp (t : ℤ) (p : Pos)

/-- Arrival time of an event. -/
def GHEvent.time : GHEvent → ℤ
  | .touchStart t _ _ => t
  | .touchMove t _ _ => t
  | .touchEnd t _ => t
  | .touchCancel t => t
  | .mouseDown t _ => t
  | .mouseMove t _ => t
  | .mouseUp t _ => t

/-- Dispatch one raw event to its listener. -/
def dispatch : GHEvent → GHState → Except JsError (GHState × List Gesture)
  | .touchStart t changed allTouches, s => handleTouchStart t changed allTouches s
  | .touchMove _ changed allTouches, s => handleTouchMove changed allTouches s
  | .touchEnd t changed, s => .ok (handleTouchEnd t changed s)
  | .touchCancel _, s => .ok (handleTouchCancel s)
  | .mouseDown t p, s => handleMouseDown t p s
  | .mouseMove _ p, s => handleMouseMove p s
  | .mouseUp t p, s => handleMouseUp t p s

/-- One event-loop step: run due timers, then the event's listener. -/
def step (s : GHState) (e : GHEvent) : Except JsError (GHState × List Gesture) := do
  let r1 ← fireDue e.time s
  let r2 ← dispatch e r1.1
  pure (r2.1, r1.2 ++ r2.2)

/-- Process a timed event sequence from a state, collecting emissions. -/
def runFrom (s : GHState) : List GHEvent → Except JsError (GHState × List Gesture)
  | [] => .ok (s, [])
  | e :: es => do
      let r1 ← step s e
      let r2 ← runFrom r1.1 es
      pure (r2.1, r1.2 ++ r2.2)

/-- Fire whatever timers are still pending, in deadline order ("eventually"):
what the event loop does once wall-clock time passes every deadline. -/
def flushAll (s : GHState) : Except JsError (GHState × List Gesture) := do
  let r1 := match s.tapTimeout with
    | some (_, p) => ({ s with tapTimeout := none }, [Gesture.tap p])
    | none => (s, [])
  match r1.1.longPressTimeout with
  | some (_, some p) =>
      .ok ({ r1.1 with longPressTimeout := none }, r1.2 ++ [Gesture.longPress p])
  | some (_, none) => .error .typeError
  | none => .ok r1

/-- Every gesture the recognizer ever emits for a finite input sequence
starting from the initial state: process the events, then let every
remaining timer elapse.  `none` when the run raised a `TypeError`. -/
def emitted (events : List GHEvent) : Option (List Gesture) :=
  match (do
      let r1 ← runFrom GHState.init events
      let r2 ← flushAll r1.1
      Except.ok (r1.2 ++ r2.2) : Except JsError (List Gesture)) with
  | .ok out => some out
  | .error _ => none

end GH

/-! ### IEEE-754 behaviour of the speed-scaling expressions (claim C3)

`handleBubbleDrag` computes
`const speedMultiplier = Math.max(0.3, 100 / distanceFromCenter)` and
`const scaledDelta = adjustedDelta * speedMultiplier`.  Whether these can
be `Infinity`/`NaN` is a question about IEEE-754 doubles, so the two
expressions are embedded over an extended-number type with exact finite
values: rounding affects no claim here, while `Infinity` and `NaN`
propagation follows IEEE-754 exactly. -/

/-- A JavaScript number: an (exactly represented) finite value, an
infinity, or `NaN`. -/
inductive JsNum where
  | fin (q : ℚ)
  | posInf
  | negInf
  | nan
deriving DecidableEq

namespace JsNum

/-- IEEE-754 division for the shapes that arise here.  JS `a / 0` is
`Infinity` for `a > 0`, `-Infinity` for `a < 0`, `NaN` for `a = 0`
(positive zero divisor; the recognizer never produces a negative zero). -/
def jsDiv : JsNum → JsNum → JsNum
  | .fin a, .fin b =>
      if b = 0 then (if 0 < a then .posInf else if a < 0 then .negInf else .nan)
      else .fin (a / b)
  | .fin _, .posInf => .fin 0
  | .fin _, .negInf => .fin 0
  | .posInf, .fin b => if 0 ≤ b then .posInf else .negInf
  | .negInf, .fin b => if 0 ≤ b then .negInf else .posInf
  | _, _ => .nan

/-- The `≤` order on non-`NaN` JS numbers (`-Infinity < finite < Infinity`). -/
def jsLe : JsNum → JsNum → Bool
  | .nan, _ => false
  | _, .nan => false
  | .negInf, _ => true
  | _, .posInf => true
  | .fin a, .fin b => a ≤ b
  | .posInf, _ => false
  | _, .negInf => false

/-- `Math.max`: `NaN` if either argument is `NaN`, else the larger. -/
def jsMax (a b : JsNum) : JsNum :=
  match a, b with
  | .nan, _ => .nan
  | _, .nan => .nan
  | x, y => if jsLe x y then y else x

/-- IEEE-754 multiplication: `NaN` propagates, `0 * ±Infinity = NaN`,
otherwise infinities follow the sign rule. -/
def jsMul : JsNum → JsNum → JsNum
  | .fin a, .fin b => .fin (a * b)
  | .fin a, .posInf => if 0 < a then .posInf else if a < 0 then .negInf else .nan
  | .fin a, .negInf => if 0 < a then .negInf else if a < 0 then .posInf else .nan
  | .posInf, .fin b => if 0 < b then .posInf else if b < 0 then .negInf else .nan
  | .negInf, .fin b => if 0 < b then .negInf else if b < 0 then .posInf else .nan
  | .posInf, .posInf => .posInf
  | .posInf, .negInf => .negInf
  | .negInf, .posInf => .negInf
  | .negInf, .negInf => .posInf
  | _, _ => .nan

/-- Is this value finite (neither infinite nor `NaN`)? -/
def isFinite : JsNum → Bool
  | .fin _ => true
  | _ => false

end JsNum

namespace RI

/-- `const speedMultiplier = Math.max(0.3, 100 / distanceFromCenter)`
(RadialInterface.handleBubbleDrag), over JS numbers. -/
def speedMultiplier (distanceFromCenter : JsNum) : JsNum :=
  JsNum.jsMax (.fin 0.3) (JsNum.jsDiv (.fin 100) distanceFromCenter)

/-- `const scaledDelta = adjustedDelta * speedMultiplier`
(RadialInterface.handleBubbleDrag), over JS numbers. -/
def scaledDeltaJs (adjustedDelta distanceFromCenter : JsNum) : JsNum :=
  JsNum.jsMul adjustedDelta (speedMultiplier distanceFromCenter)

/-! ### The momentum loop (`applyMomentum`, claim C6)

`applyMomentum` reads the drag velocity `V`, sets
`currentVelocity = V * 0.3`, and each animation frame `n` (while
`|currentVelocity| > 0.0001` and no new drag is active) applies a rotation
delta `currentVelocity * 0.5` and multiplies `currentVelocity` by the
friction factor `0.98`, rescheduling itself; otherwise it stops
rescheduling.  The velocities are exact rationals, so this loop is
embedded over `ℚ`, with the per-frame drag check abstracted as a predicate
`dragging : ℕ → Bool` (frame `n` sees `dragState.isDragging`). -/

/-- `friction = 0.98`. -/
def friction : ℚ := 0.98

/-- `minVelocity = 0.0001`. -/
def minVelocity : ℚ := 0.0001

/-- `currentVelocity` at the start of frame `n` of the momentum loop
started with drag velocity `v`: `v * 0.3` decayed by `friction` once per
completed frame. -/
def momentumVel (v : ℚ) : ℕ → ℚ
  | 0 => v * 0.3
  | n + 1 => momentumVel v n * friction

/-- The rotation delta frame `n` applies when it runs:
`const rotationDelta = currentVelocity * 0.5`. -/
def momentumDelta (v : ℚ) (n : ℕ) : ℚ := momentumVel v n * 0.5

/-- Whether the momentum callback runs its body at frame `n`: every
earlier frame ran (each run is what schedules the next frame), and the
guard `Math.abs(currentVelocity) > minVelocity && !dragState.isDragging`
holds at frame `n`. -/
def momentumRuns (v : ℚ) (dragging : ℕ → Bool) : ℕ → Bool
  | 0 => decide (|momentumVel v 0| > minVelocity) && !dragging 0
  | n + 1 => momentumRuns v dragging n
      && (decide (|momentumVel v (n + 1)| > minVelocity) && !dragging (n + 1))

end RI

/-! ### The orbital interaction engine (`RadialInterface`)

Embedded over `ℝ`: the engine stores results of `Math.sqrt` and
`Math.atan2` in its drag state and rotates with `Math.cos`/`Math.sin`, so
its numbers are idealized as reals (the standard shallow embedding of
float arithmetic; no claim below depends on rounding).  DOM access is
embedded as data: an event target is the optional result of
`event.target.closest('.bubble')` together with that element's class list
and `data-bubble-id`; a bubble's on-screen rect center — which the source
keeps in lockstep with its stored `position` via `style.left/top` — is
the stored position. -/

namespace RI

/-- A screen point, JS numbers as reals. -/
structure Pt where
  x : ℝ
  y : ℝ

/-- Euclidean distance (`Math.sqrt(dx*dx + dy*dy)`). -/
noncomputable def dist (p q : Pt) : ℝ :=
  Real.sqrt ((p.x - q.x) ^ 2 + (p.y - q.y) ^ 2)

/-- `Math.atan2 y x`: the argument of the complex number `x + y·i`, in
`(-π, π]`. -/
noncomputable def atan2 (y x : ℝ) : ℝ := Complex.arg ⟨x, y⟩

/-- A `PositionedBubble` as the engine uses it: identifier, ring level
(0 = center, 1 = orbit), screen position, orbital angle and radius.  The
source reads `bubble.position.angle || 0` and `bubble.position?.radius`:
an absent optional field is embedded as `0`, which JS truthiness treats
exactly like a stored `0`. -/
structure Bubble where
  id : String
  level : ℕ
  x : ℝ
  y : ℝ
  angle : ℝ
  radius : ℝ

/-- The engine's `dragState` record (field for field). -/
structure DragState where
  isDragging : Bool
  bubbleId : Option String
  startAngle : ℝ
  currentAngle : ℝ
  startPosition : Pt
  lastPosition : Pt
  dragDistance : ℝ
  velocity : ℝ
  momentum : ℝ
  lastDragEnd : Option ℝ

/-- The zero value the source resets `dragState` to (in `selectBubble`,
`lastDragEnd` is left out of the literal, i.e. `undefined`). -/
def DragState.zero : DragState :=
  { isDragging := false, bubbleId := none, startAngle := 0, currentAngle := 0,
    startPosition := ⟨0, 0⟩, lastPosition := ⟨0, 0⟩, dragDistance := 0,
    velocity := 0, momentum := 0, lastDragEnd := none }

/-- The engine state the claims touch: the canvas center
(`offsetWidth/2`, `offsetHeight/2`), the positioned bubbles, and the drag
state. -/
structure RIState where
  center : Pt
  bubbles : List Bubble
  dragState : DragState

/-- Navigation side effects a resolved tap can produce: `animateToCenter`
(re-center on the node after the transition delay) or the
`bubbleSelected` emission for the already-centered node. -/
inductive NavAction where
  | navigateTo (id : String)
  | bubbleSelected (id : String)
deriving DecidableEq

/-- `this.bubbles.get(bubbleId)` (`bubbles` is keyed by bubble id). -/
def lookupBubble (bs : List Bubble) (bubbleId : String) : Option Bubble :=
  bs.find? (fun b => b.id == bubbleId)

/-- `easeRotation(deltaAngle)`: clamp to the maximum per-frame rotation
magnitude `0.1`, then apply smoothstep easing, keeping the sign. -/
noncomputable def easeRotation (deltaAngle : ℝ) : ℝ :=
  let maxRotationSpeed : ℝ := 0.1
  let clampedDelta := max (-maxRotationSpeed) (min maxRotationSpeed deltaAngle)
  let t := |clampedDelta| / maxRotationSpeed
  let easedT := t * t * (3 - 2 * t)
  Real.sign clampedDelta * easedT * maxRotationSpeed

/-- The wraparound block of `handleBubbleDrag` (its `adjustedDelta`): a
raw frame-to-frame angle delta whose magnitude exceeds `π` is moved to
the other side of the circle by `± 2π` according to its sign. -/
noncomputable def adjustDelta (rawDelta : ℝ) : ℝ :=
  if |rawDelta| > Real.pi then
    if rawDelta > 0 then rawDelta - 2 * Real.pi else rawDelta + 2 * Real.pi
  else rawDelta

/-- The per-bubble body of `updateOrbitalPositions`: a level-1 bubble
with a (truthy) radius gets the eased delta added to its angle and its
position recomputed from the new angle and its radius; every other bubble
is untouched. -/
noncomputable def rotateBubble (center : Pt) (easedDelta : ℝ) (b : Bubble) : Bubble :=
  if b.level = 1 ∧ b.radius ≠ 0 then
    let newAngle := b.angle + easedDelta
    { b with angle := newAngle,
             x := center.x + b.radius * Real.cos newAngle,
             y := center.y + b.radius * Real.sin newAngle }
  else b

/-- `updateOrbitalPositions(deltaAngle)`: ease the delta once, then apply
it uniformly to every ring bubble.  (The DOM-only `.add-button` elements
are rotated by the same formula from `dataset` fields; they carry no
engine state and are outside every claim.) -/
noncomputable def updateOrbitalPositions (center : Pt) (deltaAngle : ℝ)
    (bubbles : List Bubble) : List Bubble :=
  let easedDelta := easeRotation deltaAngle
  bubbles.map (rotateBubble center easedDelta)

/-- `DRAG_THRESHOLD = 15` px (minimum displacement before rotation starts). -/
def DRAG_THRESHOLD : ℝ := 15

/-- `handleBubbleDrag(bubbleId, event)`: see steps 1-6 of the spec's
rotation algorithm.  `pos` is the event position in canvas coordinates
(`event.position.x - canvasRect.left` etc.).  One deliberate divergence
from JS arithmetic: over `ℝ`, `100 / 0 = 0`, while JS gives `Infinity`;
the value of `speedMultiplier` at `distanceFromCenter = 0` is treated
exactly in the `JsNum` embedding above (claim C3), and no theorem about
this definition depends on that value. -/
noncomputable def handleBubbleDrag (s : RIState) (bubbleId : String) (pos : Pt) :
    RIState :=
  match lookupBubble s.bubbles bubbleId with
  | none => s
  | some bubble =>
    if bubble.level ≠ 1 then s
    else
      let bubbleX := bubble.x
      let bubbleY := bubble.y
      let distanceFromCenter :=
        Real.sqrt ((bubbleX - s.center.x) ^ 2 + (bubbleY - s.center.y) ^ 2)
      let ds := s.dragState
      if ds.isDragging = false ∧ ds.bubbleId = none then
        let startAngle := atan2 (bubbleY - s.center.y) (bubbleX - s.center.x)
        { s with dragState := { ds with
            bubbleId := some bubbleId,
            startPosition := pos, lastPosition := pos,
            dragDistance := 0, velocity := 0,
            startAngle := startAngle, currentAngle := startAngle } }
      else if ds.bubbleId = some bubbleId then
        let dragDistance :=
          Real.sqrt ((pos.x - ds.startPosition.x) ^ 2 + (pos.y - ds.startPosition.y) ^ 2)
        if dragDistance > DRAG_THRESHOLD then
          let positionDelta :=
            Real.sqrt ((pos.x - ds.lastPosition.x) ^ 2 + (pos.y - ds.lastPosition.y) ^ 2)
          let velocity := positionDelta / 16
          let currentAngle := atan2 (pos.y - s.center.y) (pos.x - s.center.x)
          let speedMult := max 0.3 (100 / distanceFromCenter)
          let rawDelta := currentAngle - ds.currentAngle
          let scaledDelta := adjustDelta rawDelta * speedMult
          { s with
              dragState := { ds with
                dragDistance := dragDistance, isDragging := true,
                velocity := velocity, currentAngle := currentAngle,
                lastPosition := pos },
              bubbles := updateOrbitalPositions s.center scaledDelta s.bubbles }
        else
          { s with dragState := { ds with
              dragDistance := dragDistance, lastPosition := pos } }
      else s

/-- `handleGestureEnd()`: (momentum start is the loop embedded above;)
drop the dragging visual, remember the drag-end wall-clock time iff a
drag was active, and reset the drag state record. -/
noncomputable def handleGestureEnd (s : RIState) (now : ℝ) : RIState :=
  let wasDragging := s.dragState.isDragging
  let lastDragEnd : Option ℝ := if wasDragging then some now else none
  { s with dragState := { DragState.zero with lastDragEnd := lastDragEnd } }

/-- The commit path of `selectBubble` (everything after the two guard
returns): reset the drag state (the literal leaves `lastDragEnd`
`undefined`), move the `selected` class, and either re-center on a
level-1 bubble or emit `bubbleSelected` for a level-0 bubble. -/
noncomputable def selectBubbleCommit (s : RIState) (bubbleId : String) :
    RIState × List NavAction :=
  let s1 := { s with dragState := DragState.zero }
  match lookupBubble s1.bubbles bubbleId with
  | none => (s1, [])
  | some b =>
      if b.level = 1 then (s1, [NavAction.navigateTo bubbleId])
      else (s1, [NavAction.bubbleSelected bubbleId])

open Classical in
/-- `selectBubble(bubbleId)`: a selection is suppressed (early return,
no state change, no navigation) during an active drag whose distance
exceeds the 5 px selection guard, or within the 100 ms grace window
after the last drag end (`lastDragEnd &&` is JS-truthy: a stored `0`
would skip the guard, hence the `t ≠ 0` conjunct). -/
noncomputable def selectBubble (s : RIState) (bubbleId : String) (now : ℝ) :
    RIState × List NavAction :=
  if s.dragState.isDragging = true ∧ s.dragState.dragDistance > 5 then (s, [])
  else if ∃ t, s.dragState.lastDragEnd = some t ∧ t ≠ 0 ∧ now - t < 100 then (s, [])
  else selectBubbleCommit s bubbleId

/-- The element a gesture's `event.target.closest('.bubble')` resolves
to: its class list and its `data-bubble-id` (absent = `none`; JS
truthiness also rejects the empty string, which no rendered bubble has). -/
structure BubbleEl where
  classes : List String
  bubbleId : Option String

/-- A gesture's DOM target, reduced to what the engine reads of it. -/
structure DomTarget where
  closestBubble : Option BubbleEl

/-- `RadialInterface.handlePan(event)`: only a `.child-bubble` element
with a `data-bubble-id` reaches `handleBubbleDrag`; every other target
(central bubble, add button, canvas background) falls through with no
effect. -/
noncomputable def handlePan (s : RIState) (target : DomTarget) (pos : Pt) : RIState :=
  match target.closestBubble with
  | none => s
  | some el =>
      if "child-bubble" ∈ el.classes then
        match el.bubbleId with
        | some bubbleId => handleBubbleDrag s bubbleId pos
        | none => s
      else s

/-- `RadialInterface.handleTap(event)`: the debug line
`console.log("bubbleEl", bubble, bubble.dataset.bubbleId)` runs before
the `if (bubble && ...)` null check, so a target with no `.bubble`
ancestor throws a `TypeError` there; otherwise a bubble with an id is
passed to `selectBubble`. -/
noncomputable def handleTap (s : RIState) (target : DomTarget) (now : ℝ) :
    Except JsError (RIState × List NavAction) :=
  match target.closestBubble with
  | none => .error .typeError
  | some el =>
      match el.bubbleId with
      | some bubbleId => .ok (selectBubble s bubbleId now)
      | none => .ok (s, [])

end RI

/-! ### Concrete inputs the claim theorems evaluate the embedding at -/

/-- A recognizer state with one stored contact and a pending long-press
timer, as after a `touchstart` at (50, 50) at t = 1000 ms. -/
def ghPending : GH.GHState :=
  { touches := [(1, GH.newTouch 1 ⟨50, 50⟩ 1000)]
    tapTimeout := none
    longPressTimeout := some (1500, some ⟨50, 50⟩)
    lastTapTime := 0
    lastTapPosition := ⟨0, 0⟩ }

/-- A recognizer state with one stored contact pressed at (0, 0) at
t = 1000 ms and no pending timers, for the unknown-identifier move
scenario: the platform reports the stored contact at (30, 0) while the
event's `changedTouches` reference only the unknown identifier 99. -/
def ghMoving : GH.GHState :=
  { touches := [(1, GH.newTouch 1 ⟨0, 0⟩ 1000)]
    tapTimeout := none
    longPressTimeout := none
    lastTapTime := 0
    lastTapPosition := ⟨0, 0⟩ }

/-- An engine state in the middle of an active drag (20 px past the
start), for witnessing the selection guard. -/
def c5state : RI.RIState :=
  { center := ⟨200, 200⟩
    bubbles := []
    dragState := { RI.DragState.zero with
      isDragging := true, bubbleId := some "a", dragDistance := 20 } }

/-- The central bubble's DOM element as `handlePan` sees it: classed
`bubble central-bubble sun-bubble`, no `child-bubble` class. -/
def c10el : RI.BubbleEl :=
  { classes := ["bubble", "central-bubble", "sun-bubble"], bubbleId := some "root" }

/-- A quiescent engine state for witnessing frame conditions. -/
def c10state : RI.RIState :=
  { center := ⟨200, 200⟩, bubbles := [], dragState := RI.DragState.zero }

/-- The claimed Drag State invariant: `dragging == true` implies the
stored drag distance exceeds the 15 px activation threshold and the
dragged element id is non-null. -/
def DragStateInvariant (ds : RI.DragState) : Prop :=
  ds.isDragging = true → ds.dragDistance > RI.DRAG_THRESHOLD ∧ ds.bubbleId ≠ none

/-- The one ring bubble of the C8 trace: level 1, angle 0, radius 155,
on-screen at (355, 200) around center (200, 200). -/
def c8bubble : RI.Bubble := ⟨"a", 1, 355, 200, 0, 155⟩

/-- C8 trace, state 0: quiescent engine. -/
def c8s0 : RI.RIState :=
  { center := ⟨200, 200⟩, bubbles := [c8bubble], dragState := RI.DragState.zero }

/-- C8 trace, state 1: after the first pan at (355, 200) (drag session
initialized, nothing moved yet). -/
def c8s1 : RI.RIState :=
  { center := ⟨200, 200⟩, bubbles := [c8bubble], dragState :=
    { isDragging := false, bubbleId := some "a", startAngle := 0, currentAngle := 0,
      startPosition := ⟨355, 200⟩, lastPosition := ⟨355, 200⟩, dragDistance := 0,
      velocity := 0, momentum := 0, lastDragEnd := none } }

/-- C8 trace, state 2: after a second pan at (375, 200), 20 px from the
start — past the threshold, so the drag activates. -/
noncomputable def c8s2 : RI.RIState :=
  { center := ⟨200, 200⟩, bubbles := [c8bubble], dragState :=
    { isDragging := true, bubbleId := some "a", startAngle := 0, currentAngle := 0,
      startPosition := ⟨355, 200⟩, lastPosition := ⟨375, 200⟩, dragDistance := 20,
      velocity := 20 / 16, momentum := 0, lastDragEnd := none } }

/-- C8 trace, state 3: after a third pan back at (360, 200), 5 px from
the start — `dragDistance` drops to 5 while `isDragging` stays `true`. -/
noncomputable def c8s3 : RI.RIState :=
  { center := ⟨200, 200⟩, bubbles := [c8bubble], dragState :=
    { isDragging := true, bubbleId := some "a", startAngle := 0, currentAngle := 0,
      startPosition := ⟨355, 200⟩, lastPosition := ⟨360, 200⟩, dragDistance := 5,
      velocity := 20 / 16, momentum := 0, lastDragEnd := none } }

/-- The state after the three pans of the C8 trace. -/
noncomputable def c8final : RI.RIState :=
  RI.handleBubbleDrag
    (RI.handleBubbleDrag (RI.handleBubbleDrag c8s0 "a" ⟨355, 200⟩) "a" ⟨375, 200⟩)
    "a" ⟨360, 200⟩

/-- A quiescent engine state used to witness the C8 reset clauses. -/
def c8w : RI.RIState :=
  { center := ⟨200, 200⟩, bubbles := [], dragState := RI.DragState.zero }

end Sol

namespace Sol

/-! ## Theorems -/

/-- C1 (code_bug evaluation): a single qualifying press/release emits no
gesture at all, although the claim requires exactly one `tap`; two
qualifying taps 200 ms apart emit one `doubleTap` and zero `tap`s (that
part of the claim holds on the code); two qualifying taps 400 ms apart
emit nothing, although the claim requires two `tap`s.  Cause:
`handleTouchEnd` calls `clearTimers()` right after `handleTap` arms the
single-tap timer, so that timer never fires. -/
theorem c1_tap_classification_evaluated :
    GH.emitted [GH.GHEvent.touchStart 1000 [(1, ⟨50, 50⟩)] [(1, ⟨50, 50⟩)],
                GH.GHEvent.touchEnd 1050 [(1, ⟨50, 50⟩)]] = some [] ∧
    GH.emitted [GH.GHEvent.touchStart 1000 [(1, ⟨50, 50⟩)] [(1, ⟨50, 50⟩)],
                GH.GHEvent.touchEnd 1050 [(1, ⟨50, 50⟩)],
                GH.GHEvent.touchStart 1200 [(1, ⟨50, 50⟩)] [(1, ⟨50, 50⟩)],
                GH.GHEvent.touchEnd 1250 [(1, ⟨50, 50⟩)]]
      = some [GH.Gesture.doubleTap ⟨50, 50⟩] ∧
    GH.emitted [GH.GHEvent.touchStart 1000 [(1, ⟨50, 50⟩)] [(1, ⟨50, 50⟩)],
                GH.GHEvent.touchEnd 1050 [(1, ⟨50, 50⟩)],
                GH.GHEvent.touchStart 1400 [(1, ⟨50, 50⟩)] [(1, ⟨50, 50⟩)],
                GH.GHEvent.touchEnd 1450 [(1, ⟨50, 50⟩)]] = some [] := by
  refine ⟨by decide, by decide, by decide⟩

lemma touchEnd_foldl_unknown (now : ℤ) (changed : List (ℕ × Pos))
    (s : GH.GHState) (out : List GH.Gesture)
    (h : ∀ idp ∈ changed, GH.mapGet s.touches idp.1 = none) :
    changed.foldl (fun acc idp => GH.touchEndOne now idp acc) (s, out) = (s, out) := by
  induction changed generalizing out with
  | nil => rfl
  | cons idp rest ih =>
      have h1 : GH.mapGet s.touches idp.1 = none := h idp (List.mem_cons_self _ _)
      have hstep : GH.touchEndOne now idp (s, out) = (s, out) := by
        simp [GH.touchEndOne, h1]
      rw [List.foldl_cons, hstep]
      exact ih out (fun q hq => h q (List.mem_cons_of_mem _ hq))

lemma touchMove_foldl_empty (changed : List (ℕ × Pos)) :
    changed.foldl (fun m cp =>
        match GH.mapGet m cp.1 with
        | some ts => GH.mapSet m cp.1 { ts with currentX := cp.2.x, currentY := cp.2.y }
        | none => m) ([] : List (ℕ × GH.TouchState)) = [] := by
  induction changed with
  | nil => rfl
  | cons cp rest ih => simpa [GH.mapGet] using ih

lemma touchMove_foldl_unknown (changed : List (ℕ × Pos))
    (m : List (ℕ × GH.TouchState))
    (h : ∀ idp ∈ changed, GH.mapGet m idp.1 = none) :
    changed.foldl (fun m cp =>
        match GH.mapGet m cp.1 with
        | some ts => GH.mapSet m cp.1 { ts with currentX := cp.2.x, currentY := cp.2.y }
        | none => m) m = m := by
  induction changed with
  | nil => rfl
  | cons cp rest ih =>
      have h1 : GH.mapGet m cp.1 = none := h cp (List.mem_cons_self _ _)
      rw [List.foldl_cons]
      simp only [h1]
      exact ih (fun q hq => h q (List.mem_cons_of_mem _ hq))

lemma handleSingleTouchMove_touches (allTouches : List (ℕ × Pos)) (s : GH.GHState)
    (r : GH.GHState × List GH.Gesture)
    (h : GH.handleSingleTouchMove allTouches s = .ok r) :
    r.1.touches = s.touches := by
  rw [GH.handleSingleTouchMove] at h
  cases hh : allTouches.head? with
  | none => rw [hh] at h; cases h
  | some tp =>
      obtain ⟨tid, p⟩ := tp
      rw [hh] at h
      cases hg : GH.mapGet s.touches tid with
      | none =>
          simp only [hg] at h
          cases h
          rfl
      | some ts =>
          simp only [hg] at h
          split_ifs at h
          · cases h
            rfl
          · cases h
            rfl

/-- C9 (amended): a move or release event referencing an unknown or
already-released contact identifier is never fatal and never touches the
contact map, and in the no-stored-contact cases it is an exact no-op:
touch moves with no stored contacts, and mouse moves/releases with no
stored synthetic contact, leave the state unchanged and emit nothing.
But the recognizer keys its reaction to the stored-contact count and to
`event.touches[0]`, not to the changed identifiers: a touch move whose
`changedTouches` reference only an unknown identifier still emits a
`pan` for a stored contact that sits past the movement threshold, and a
touch release with an unknown identifier still runs the unconditional
`clearTimers()`. -/
theorem c9_unknown_contact_policy :
    (∀ (changed allTouches : List (ℕ × Pos)) (s : GH.GHState), s.touches = [] →
        GH.handleTouchMove changed allTouches s = .ok (s, [])) ∧
    (∀ (p : Pos) (s : GH.GHState), GH.mapGet s.touches 0 = none →
        GH.handleMouseMove p s = .ok (s, [])) ∧
    (∀ (now : ℤ) (p : Pos) (s : GH.GHState), GH.mapGet s.touches 0 = none →
        GH.handleMouseUp now p s = .ok (s, [])) ∧
    (∀ (now : ℤ) (changed : List (ℕ × Pos)) (s : GH.GHState),
        (∀ idp ∈ changed, GH.mapGet s.touches idp.1 = none) →
        GH.handleTouchEnd now changed s = (GH.clearTimers s, [])) ∧
    (∀ (changed allTouches : List (ℕ × Pos)) (s : GH.GHState)
        (r : GH.GHState × List GH.Gesture),
        (∀ idp ∈ changed, GH.mapGet s.touches idp.1 = none) →
        GH.handleTouchMove changed allTouches s = .ok r →
        r.1.touches = s.touches) ∧
    GH.handleTouchMove [(99, ⟨30, 0⟩)] [(1, ⟨30, 0⟩)] ghMoving
      = .ok (ghMoving, [GH.Gesture.pan ⟨30, 0⟩ 30 0]) := by
  refine ⟨?_, ?_, ?_, ?_, ?_, ?_⟩
  · intro changed allTouches s h
    simp only [GH.handleTouchMove, h, touchMove_foldl_empty]
    have hs : ({ s with touches := [] } : GH.GHState) = s := by
      cases s; simp_all
    rw [hs]
    simp [GH.mapSize]
  · intro p s h
    simp [GH.handleMouseMove, h]
  · intro now p s h
    simp [GH.handleMouseUp, h]
  · intro now changed s h
    simp only [GH.handleTouchEnd]
    rw [touchEnd_foldl_unknown now changed s [] h]
  · intro changed allTouches s r h hr
    rw [GH.handleTouchMove] at hr
    rw [touchMove_foldl_unknown changed s.touches h] at hr
    have hs : ({ s with touches := s.touches } : GH.GHState) = s := rfl
    rw [hs] at hr
    by_cases hn : GH.mapSize s.touches == 1
    · rw [if_pos hn] at hr
      exact handleSingleTouchMove_touches allTouches s r hr
    · rw [if_neg hn] at hr
      cases hr
      rfl
  · rfl

/-- Witness for C9's amended theorem at a concrete input: a `touchend`
for the unknown identifier 99 against the initial state is the
timer-clearing no-emission case. -/
theorem c9_unknown_contact_policy_witness :
    GH.handleTouchEnd 1100 [(99, ⟨200, 200⟩)] GH.GHState.init
      = (GH.clearTimers GH.GHState.init, []) :=
  c9_unknown_contact_policy.2.2.2.1 1100 [(99, ⟨200, 200⟩)] GH.GHState.init (by decide)

/-- C9 (counterexample to the claim as stated): a release event for an
unknown contact identifier does not leave the recognizer state
unchanged — it emits nothing and touches no contact, but it clears the
pending long-press timer. -/
theorem c9_unknown_release_clears_timer :
    (GH.handleTouchEnd 1100 [(99, ⟨200, 200⟩)] ghPending).2 = [] ∧
    (GH.handleTouchEnd 1100 [(99, ⟨200, 200⟩)] ghPending).1.touches = ghPending.touches ∧
    ghPending.longPressTimeout = some (1500, some ⟨50, 50⟩) ∧
    (GH.handleTouchEnd 1100 [(99, ⟨200, 200⟩)] ghPending).1.longPressTimeout = none ∧
    (GH.handleTouchEnd 1100 [(99, ⟨200, 200⟩)] ghPending).1 ≠ ghPending := by
  refine ⟨by decide, by decide, by decide, by decide, by decide⟩

/-- C2 (code_bug evaluation): two of the core's entry points throw.
Every `mousedown` throws a `TypeError` (`startLongPressTimer` reads
`event.touches[0]` of a `MouseEvent`, which has no `touches` property),
and `RadialInterface.handleTap` throws a `TypeError` whenever the tap
target has no `.bubble` ancestor (the debug `console.log` dereferences
the `null` result of `closest` before the null check). -/
theorem c2_entry_points_throw :
    (∀ (now : ℤ) (p : Pos) (s : GH.GHState),
        GH.handleMouseDown now p s = .error .typeError) ∧
    (∀ (s : RI.RIState) (now : ℝ),
        RI.handleTap s ⟨none⟩ now = .error .typeError) := by
  constructor
  · intro now p s
    simp [GH.handleMouseDown, GH.startLongPressTimer, Bind.bind, Except.bind]
  · intro s now
    rfl

/-- C3 (code_bug evaluation): the speed-scaling division is not guarded.
At `distanceFromCenter = 0` the multiplier `Math.max(0.3, 100 / 0)` is
`Infinity` — not finite and not clamped to any maximum; with a wrapped
frame delta of `0` the scaled delta `0 * Infinity` is `NaN`; and the
multiplier is unbounded as the distance shrinks (`0.001` px gives
`100000`), having only the lower clamp `0.3`. -/
theorem c3_speed_multiplier_unguarded :
    RI.speedMultiplier (.fin 0) = .posInf ∧
    (RI.speedMultiplier (.fin 0)).isFinite = false ∧
    RI.scaledDeltaJs (.fin 0) (.fin 0) = .nan ∧
    RI.speedMultiplier (.fin (1 / 1000)) = .fin 100000 := by
  refine ⟨?_, ?_, ?_, ?_⟩ <;>
    norm_num [RI.speedMultiplier, RI.scaledDeltaJs, JsNum.jsDiv, JsNum.jsMax,
      JsNum.jsMul, JsNum.jsLe, JsNum.isFinite]

lemma momentumVel_eq (v : ℚ) (n : ℕ) :
    RI.momentumVel v n = v * 0.3 * RI.friction ^ n := by
  induction n with
  | zero => simp [RI.momentumVel]
  | succ m ih => rw [RI.momentumVel, ih, pow_succ]; ring

lemma momentumRuns_false_of_small (v : ℚ) (dragging : ℕ → Bool) (n : ℕ)
    (h : ¬ |RI.momentumVel v n| > RI.minVelocity) :
    RI.momentumRuns v dragging n = false := by
  cases n with
  | zero => simp [RI.momentumRuns, h]
  | succ m => simp [RI.momentumRuns, h]

/-- C6: frame `n` of the momentum loop applies the delta
`0.15 · V · f^n` (proportional to `V·f^n`, with friction `f = 0.98 < 1`);
the loop reaches a frame at which it stops rescheduling (once the decayed
velocity falls to or below the `0.0001` threshold), never runs again
after it first stops, and does not run any frame at which a new drag is
active. -/
theorem c6_momentum_decay_terminates :
    (∀ (v : ℚ) (n : ℕ), RI.momentumDelta v n = 0.15 * v * RI.friction ^ n) ∧
    (∀ (v : ℚ) (dragging : ℕ → Bool),
        ∃ N, RI.momentumRuns v dragging N = false) ∧
    (∀ (v : ℚ) (dragging : ℕ → Bool) (n : ℕ),
        RI.momentumRuns v dragging n = false →
        RI.momentumRuns v dragging (n + 1) = false) ∧
    (∀ (v : ℚ) (dragging : ℕ → Bool) (n : ℕ),
        dragging n = true → RI.momentumRuns v dragging n = false) := by
  refine ⟨?_, ?_, ?_, ?_⟩
  · intro v n
    rw [RI.momentumDelta, momentumVel_eq]; ring
  · intro v dragging
    have hb : |v * 0.3| + 1 > 0 := by positivity
    have heps : (0 : ℚ) < RI.minVelocity / (|v * 0.3| + 1) := by
      apply div_pos _ hb
      norm_num [RI.minVelocity]
    obtain ⟨N, hN⟩ :=
      exists_pow_lt_of_lt_one heps (by norm_num [RI.friction] : RI.friction < 1)
    refine ⟨N, momentumRuns_false_of_small v dragging N ?_⟩
    rw [momentumVel_eq]
    have hf : (0 : ℚ) ≤ RI.friction ^ N :=
      pow_nonneg (by norm_num [RI.friction]) N
    have h1 : |v * 0.3 * RI.friction ^ N| = |v * 0.3| * RI.friction ^ N := by
      rw [abs_mul, abs_of_nonneg hf]
    rw [h1]
    have h2 : |v * 0.3| * RI.friction ^ N ≤ (|v * 0.3| + 1) * RI.friction ^ N := by
      apply mul_le_mul_of_nonneg_right _ hf
      linarith
    have h3 : (|v * 0.3| + 1) * RI.friction ^ N < RI.minVelocity := by
      have := mul_lt_mul_of_pos_left hN hb
      rwa [mul_div_cancel₀ _ (ne_of_gt hb)] at this
    push_neg
    linarith
  · intro v dragging n h
    rw [RI.momentumRuns, h, Bool.false_and]
  · intro v dragging n h
    cases n with
    | zero => simp [RI.momentumRuns, h]
    | succ m => simp [RI.momentumRuns, h]

/-- Witness for C6 at a concrete input: with a drag active at frame 0 the
loop does not run frame 0, and the frame-0 delta for `V = 1` is
`0.15 · 1 · f^0`. -/
theorem c6_momentum_decay_terminates_witness :
    RI.momentumRuns 1 (fun _ => true) 0 = false ∧
    RI.momentumDelta 1 0 = 0.15 * 1 * RI.friction ^ 0 :=
  ⟨c6_momentum_decay_terminates.2.2.2 1 (fun _ => true) 0 rfl,
   c6_momentum_decay_terminates.1 1 0⟩

/-- C4 (counterexample to the claim as stated): the claim's concrete
example is wrong on the code — a raw delta of 3.0 rad does not exceed π
(π > 3), so `handleBubbleDrag`'s wraparound block leaves it at 3.0; it
does not resolve to `3.0 - 2π`. -/
theorem c4_three_rad_unchanged :
    RI.adjustDelta 3 = 3 ∧ (3 : ℝ) ≠ 3 - 2 * Real.pi := by
  constructor
  · rw [RI.adjustDelta, if_neg]
    rw [abs_of_nonneg (by norm_num : (0:ℝ) ≤ 3)]
    exact not_lt.mpr (le_of_lt Real.pi_gt_three)
  · intro h
    have := Real.pi_gt_three
    linarith

/-- C4 (amended): a raw frame delta whose magnitude exceeds π is resolved
by subtracting or adding 2π according to its sign — e.g. 3.3 rad resolves
to `3.3 - 2π`, a negative short-arc value, while 3.0 rad is already below
π and stays 3.0 — and the eased delta applied to the ring in any single
frame never exceeds the 0.1 rad clamp in magnitude. -/
theorem c4_short_arc_resolution_and_clamp :
    (∀ d : ℝ, Real.pi < |d| →
        RI.adjustDelta d = if 0 < d then d - 2 * Real.pi else d + 2 * Real.pi) ∧
    RI.adjustDelta 3 = 3 ∧
    RI.adjustDelta 3.3 = 3.3 - 2 * Real.pi ∧
    (∀ d : ℝ, |RI.easeRotation d| ≤ 0.1) := by
  have habs33 : Real.pi < |(3.3 : ℝ)| := by
    rw [abs_of_nonneg (by norm_num : (0:ℝ) ≤ 3.3)]
    exact lt_trans Real.pi_lt_d2 (by norm_num)
  have hmain : ∀ d : ℝ, Real.pi < |d| →
      RI.adjustDelta d = if 0 < d then d - 2 * Real.pi else d + 2 * Real.pi := by
    intro d hd
    rw [RI.adjustDelta, if_pos hd]
  refine ⟨hmain, ?_, ?_, ?_⟩
  · rw [RI.adjustDelta, if_neg]
    rw [abs_of_nonneg (by norm_num : (0:ℝ) ≤ 3)]
    exact not_lt.mpr (le_of_lt Real.pi_gt_three)
  · rw [hmain 3.3 habs33, if_pos (by norm_num : (0:ℝ) < 3.3)]
  · intro d
    show |Real.sign (max (-(0.1:ℝ)) (min 0.1 d)) *
        (|max (-(0.1:ℝ)) (min 0.1 d)| / 0.1 * (|max (-(0.1:ℝ)) (min 0.1 d)| / 0.1) *
          (3 - 2 * (|max (-(0.1:ℝ)) (min 0.1 d)| / 0.1))) * 0.1| ≤ 0.1
    set c := max (-(0.1:ℝ)) (min 0.1 d) with hc
    have hc1 : c ≤ 0.1 := max_le (by norm_num) (min_le_left _ _)
    have hc2 : -(0.1:ℝ) ≤ c := le_max_left _ _
    have habs : |c| ≤ 0.1 := abs_le.mpr ⟨hc2, hc1⟩
    set t := |c| / 0.1 with ht
    have ht0 : 0 ≤ t := div_nonneg (abs_nonneg c) (by norm_num)
    have ht1 : t ≤ 1 := (div_le_one (by norm_num)).mpr habs
    have he0 : 0 ≤ t * t * (3 - 2 * t) := by nlinarith
    have he1 : t * t * (3 - 2 * t) ≤ 1 := by nlinarith [sq_nonneg (1 - t)]
    have hsign : |Real.sign c| ≤ 1 := by
      rcases Real.sign_apply_eq c with h | h | h <;> rw [h] <;> norm_num
    calc |Real.sign c * (t * t * (3 - 2 * t)) * 0.1|
        = |Real.sign c| * |t * t * (3 - 2 * t)| * |(0.1:ℝ)| := by
          rw [abs_mul, abs_mul]
      _ = |Real.sign c| * (t * t * (3 - 2 * t)) * 0.1 := by
          rw [abs_of_nonneg he0, abs_of_nonneg (by norm_num : (0:ℝ) ≤ 0.1)]
      _ ≤ 1 * 0.1 := by
          apply mul_le_mul_of_nonneg_right _ (by norm_num : (0:ℝ) ≤ 0.1)
          exact mul_le_one₀ hsign he0 he1
      _ = 0.1 := by norm_num

/-- Witness for C4's amended theorem at a concrete input: 3.3 rad exceeds
π and resolves by the sign rule. -/
theorem c4_short_arc_resolution_and_clamp_witness :
    Real.pi < |(3.3 : ℝ)| ∧
    RI.adjustDelta 3.3
      = if 0 < (3.3:ℝ) then 3.3 - 2 * Real.pi else 3.3 + 2 * Real.pi := by
  have habs33 : Real.pi < |(3.3 : ℝ)| := by
    rw [abs_of_nonneg (by norm_num : (0:ℝ) ≤ 3.3)]
    exact lt_trans Real.pi_lt_d2 (by norm_num)
  exact ⟨habs33, c4_short_arc_resolution_and_clamp.1 3.3 habs33⟩

/-- C5: `selectBubble` is a strict no-op — state unchanged, no
re-centering, no selection notification — whenever the session is an
active drag with accumulated distance over the 5 px selection guard, or
the tap resolves within the 100 ms grace window after the last drag end
(`lastDragEnd = some t` with `t ≠ 0`, a wall-clock time, and
`now - t < 100`). -/
theorem c5_selection_suppressed :
    ∀ (s : RI.RIState) (bubbleId : String) (now : ℝ),
      ((s.dragState.isDragging = true ∧ s.dragState.dragDistance > 5) ∨
        (∃ t, s.dragState.lastDragEnd = some t ∧ t ≠ 0 ∧ now - t < 100)) →
      RI.selectBubble s bubbleId now = (s, []) := by
  intro s bubbleId now h
  rcases h with h1 | h2
  · rw [RI.selectBubble, if_pos h1]
  · by_cases hg : s.dragState.isDragging = true ∧ s.dragState.dragDistance > 5
    · rw [RI.selectBubble, if_pos hg]
    · rw [RI.selectBubble, if_neg hg, if_pos h2]

/-- Witness for C5 at a concrete input: an active 20 px drag suppresses
selection. -/
theorem c5_selection_suppressed_witness :
    (c5state.dragState.isDragging = true ∧ c5state.dragState.dragDistance > 5) ∧
    RI.selectBubble c5state "a" 0 = (c5state, []) := by
  have h : c5state.dragState.isDragging = true ∧ c5state.dragState.dragDistance > 5 := by
    constructor
    · rfl
    · show (20 : ℝ) > 5
      norm_num
  exact ⟨h, c5_selection_suppressed c5state "a" 0 (Or.inl h)⟩

/-- C10: a pan whose target is not a level-1 child ring bubble leaves the
whole engine state — drag record, every bubble's angle and position —
exactly unchanged: a target with no `.bubble` ancestor (canvas
background), a target without the `child-bubble` class (central bubble),
a target without a `data-bubble-id` (add button), and, inside
`handleBubbleDrag`, a bubble whose ring level is not 1. -/
theorem c10_pan_non_ring_target_noop :
    (∀ (s : RI.RIState) (pos : RI.Pt), RI.handlePan s ⟨none⟩ pos = s) ∧
    (∀ (s : RI.RIState) (el : RI.BubbleEl) (pos : RI.Pt),
        "child-bubble" ∉ el.classes → RI.handlePan s ⟨some el⟩ pos = s) ∧
    (∀ (s : RI.RIState) (el : RI.BubbleEl) (pos : RI.Pt),
        el.bubbleId = none → RI.handlePan s ⟨some el⟩ pos = s) ∧
    (∀ (s : RI.RIState) (bubbleId : String) (pos : RI.Pt) (b : RI.Bubble),
        RI.lookupBubble s.bubbles bubbleId = some b → b.level ≠ 1 →
        RI.handleBubbleDrag s bubbleId pos = s) := by
  refine ⟨?_, ?_, ?_, ?_⟩
  · intro s pos
    rfl
  · intro s el pos h
    rw [RI.handlePan]
    simp only [if_neg h]
  · intro s el pos h
    rw [RI.handlePan]
    by_cases hm : "child-bubble" ∈ el.classes
    · simp only [if_pos hm, h]
    · simp only [if_neg hm]
  · intro s bubbleId pos b hb hl
    rw [RI.handleBubbleDrag, hb]
    simp only [if_pos hl]

/-- Witness for C10 at a concrete input: a pan on the central bubble is a
no-op. -/
theorem c10_pan_non_ring_target_noop_witness :
    "child-bubble" ∉ c10el.classes ∧
    RI.handlePan c10state ⟨some c10el⟩ ⟨0, 0⟩ = c10state := by
  have h : "child-bubble" ∉ c10el.classes := by decide
  exact ⟨h, c10_pan_non_ring_target_noop.2.1 c10state c10el ⟨0, 0⟩ h⟩

lemma atan2_zero_of_nonneg (x : ℝ) (hx : 0 ≤ x) : RI.atan2 0 x = 0 := by
  rw [RI.atan2]
  exact Complex.arg_ofReal_of_nonneg hx

lemma ease_pi_six : RI.easeRotation (Real.pi / 6) = 0.1 := by
  have hp : (0.1 : ℝ) ≤ Real.pi / 6 := by
    have := Real.pi_gt_three; linarith
  simp only [RI.easeRotation]
  rw [min_eq_left hp, max_eq_right (by norm_num : -(0.1 : ℝ) ≤ 0.1)]
  rw [abs_of_nonneg (by norm_num : (0 : ℝ) ≤ 0.1)]
  rw [Real.sign_of_pos (by norm_num : (0 : ℝ) < 0.1)]
  norm_num

lemma dist_ring_point (cx cy r α : ℝ) (hr : 0 ≤ r) :
    RI.dist ⟨cx + r * Real.cos α, cy + r * Real.sin α⟩ ⟨cx, cy⟩ = r := by
  simp only [RI.dist]
  rw [show (cx + r * Real.cos α - cx) ^ 2 + (cy + r * Real.sin α - cy) ^ 2 = r ^ 2 from by
    have h2 := Real.sin_sq_add_cos_sq α
    calc (cx + r * Real.cos α - cx) ^ 2 + (cy + r * Real.sin α - cy) ^ 2
        = r ^ 2 * (Real.sin α ^ 2 + Real.cos α ^ 2) := by ring
      _ = r ^ 2 := by rw [h2, mul_one]]
  exact Real.sqrt_sq hr

/-- C7: rotating the ring [0, 2π/3, 4π/3] (radius 155, center (200, 200))
by a pan delta of π/6 applies the same eased delta 0.1 to every ring
element's angle (`easeRotation (π/6) = 0.1`, since π/6 exceeds the 0.1
clamp), recomputing each position from its new angle and unchanged
radius; each new position lies at distance 155 from the center — radius
is invariant under the rotation update. -/
theorem c7_rigid_rotation_radius_invariant :
    RI.easeRotation (Real.pi / 6) = 0.1 ∧
    RI.updateOrbitalPositions ⟨200, 200⟩ (Real.pi / 6)
        [⟨"a", 1, 200 + 155 * Real.cos 0, 200 + 155 * Real.sin 0, 0, 155⟩,
         ⟨"b", 1, 200 + 155 * Real.cos (2 * Real.pi / 3),
            200 + 155 * Real.sin (2 * Real.pi / 3), 2 * Real.pi / 3, 155⟩,
         ⟨"c", 1, 200 + 155 * Real.cos (4 * Real.pi / 3),
            200 + 155 * Real.sin (4 * Real.pi / 3), 4 * Real.pi / 3, 155⟩]
      = [⟨"a", 1, 200 + 155 * Real.cos (0 + 0.1), 200 + 155 * Real.sin (0 + 0.1),
            0 + 0.1, 155⟩,
         ⟨"b", 1, 200 + 155 * Real.cos (2 * Real.pi / 3 + 0.1),
            200 + 155 * Real.sin (2 * Real.pi / 3 + 0.1), 2 * Real.pi / 3 + 0.1, 155⟩,
         ⟨"c", 1, 200 + 155 * Real.cos (4 * Real.pi / 3 + 0.1),
            200 + 155 * Real.sin (4 * Real.pi / 3 + 0.1), 4 * Real.pi / 3 + 0.1, 155⟩] ∧
    RI.dist ⟨200 + 155 * Real.cos (0 + 0.1), 200 + 155 * Real.sin (0 + 0.1)⟩
      ⟨200, 200⟩ = 155 ∧
    RI.dist ⟨200 + 155 * Real.cos (2 * Real.pi / 3 + 0.1),
        200 + 155 * Real.sin (2 * Real.pi / 3 + 0.1)⟩ ⟨200, 200⟩ = 155 ∧
    RI.dist ⟨200 + 155 * Real.cos (4 * Real.pi / 3 + 0.1),
        200 + 155 * Real.sin (4 * Real.pi / 3 + 0.1)⟩ ⟨200, 200⟩ = 155 := by
  refine ⟨ease_pi_six, ?_, dist_ring_point 200 200 155 _ (by norm_num),
    dist_ring_point 200 200 155 _ (by norm_num),
    dist_ring_point 200 200 155 _ (by norm_num)⟩
  have hrot : ∀ (idStr : String) (α : ℝ),
      RI.rotateBubble ⟨200, 200⟩ 0.1
          ⟨idStr, 1, 200 + 155 * Real.cos α, 200 + 155 * Real.sin α, α, 155⟩
        = ⟨idStr, 1, 200 + 155 * Real.cos (α + 0.1), 200 + 155 * Real.sin (α + 0.1),
            α + 0.1, 155⟩ := by
    intro idStr α
    rw [RI.rotateBubble, if_pos]
    exact ⟨rfl, by norm_num⟩
  simp only [RI.updateOrbitalPositions, ease_pi_six, List.map]
  rw [hrot, hrot, hrot]

lemma handleBubbleDrag_dragState_cases (s : RI.RIState) (bubbleId : String) (pos : RI.Pt) :
    ((RI.handleBubbleDrag s bubbleId pos).dragState.isDragging = s.dragState.isDragging ∧
      (RI.handleBubbleDrag s bubbleId pos).dragState.bubbleId = s.dragState.bubbleId) ∨
    ((RI.handleBubbleDrag s bubbleId pos).dragState.isDragging = s.dragState.isDragging ∧
      (RI.handleBubbleDrag s bubbleId pos).dragState.bubbleId = some bubbleId) ∨
    ((RI.handleBubbleDrag s bubbleId pos).dragState.isDragging = true ∧
      (RI.handleBubbleDrag s bubbleId pos).dragState.bubbleId = some bubbleId ∧
      (RI.handleBubbleDrag s bubbleId pos).dragState.dragDistance > RI.DRAG_THRESHOLD) := by
  unfold RI.handleBubbleDrag
  split
  · left; exact ⟨rfl, rfl⟩
  · dsimp only
    split_ifs with h1 h2 h3 h4
    · left; exact ⟨rfl, rfl⟩
    · right; left; exact ⟨rfl, rfl⟩
    · right; right
      refine ⟨rfl, ?_, h4⟩
      rw [h3]
    · left; exact ⟨rfl, rfl⟩
    · left; exact ⟨rfl, rfl⟩

lemma adjustDelta_zero : RI.adjustDelta 0 = 0 := by
  rw [RI.adjustDelta, if_neg]
  rw [abs_zero]
  exact not_lt.mpr (le_of_lt Real.pi_pos)

lemma easeRotation_zero : RI.easeRotation 0 = 0 := by
  simp only [RI.easeRotation]
  rw [min_eq_right (by norm_num : (0:ℝ) ≤ 0.1),
      max_eq_right (by norm_num : -(0.1:ℝ) ≤ 0)]
  simp [Real.sign_zero]

lemma rotateBubble_zero_c8 : RI.rotateBubble ⟨200, 200⟩ 0 c8bubble = c8bubble := by
  rw [RI.rotateBubble, if_pos]
  · norm_num [c8bubble, Real.cos_zero, Real.sin_zero]
  · exact ⟨rfl, by norm_num [c8bubble]⟩

lemma updateZero_c8 : RI.updateOrbitalPositions ⟨200, 200⟩ 0 [c8bubble] = [c8bubble] := by
  simp only [RI.updateOrbitalPositions, easeRotation_zero, List.map, rotateBubble_zero_c8]

lemma c8_step1 : RI.handleBubbleDrag c8s0 "a" ⟨355, 200⟩ = c8s1 := by
  have ha : RI.atan2 ((200:ℝ) - 200) ((355:ℝ) - 200) = 0 := by
    rw [show ((200:ℝ) - 200) = 0 by norm_num, show ((355:ℝ) - 200) = 155 by norm_num]
    exact atan2_zero_of_nonneg 155 (by norm_num)
  rw [show RI.handleBubbleDrag c8s0 "a" ⟨355, 200⟩
      = { c8s0 with dragState := { c8s0.dragState with
            bubbleId := some "a",
            startPosition := ⟨355, 200⟩, lastPosition := ⟨355, 200⟩,
            dragDistance := 0, velocity := 0,
            startAngle := RI.atan2 ((200:ℝ) - 200) ((355:ℝ) - 200),
            currentAngle := RI.atan2 ((200:ℝ) - 200) ((355:ℝ) - 200) } } from rfl]
  rw [ha]
  rfl

lemma c8_step2 : RI.handleBubbleDrag c8s1 "a" ⟨375, 200⟩ = c8s2 := by
  have hd20 : Real.sqrt (((375:ℝ) - 355) ^ 2 + ((200:ℝ) - 200) ^ 2) = 20 := by
    rw [show ((375:ℝ) - 355) ^ 2 + ((200:ℝ) - 200) ^ 2 = 20 ^ 2 by norm_num]
    exact Real.sqrt_sq (by norm_num)
  have ha2 : RI.atan2 ((200:ℝ) - 200) ((375:ℝ) - 200) = 0 := by
    rw [show ((200:ℝ) - 200) = 0 by norm_num, show ((375:ℝ) - 200) = 175 by norm_num]
    exact atan2_zero_of_nonneg 175 (by norm_num)
  rw [show RI.handleBubbleDrag c8s1 "a" ⟨375, 200⟩
      = (if Real.sqrt (((375:ℝ) - 355) ^ 2 + ((200:ℝ) - 200) ^ 2) > RI.DRAG_THRESHOLD then
          { c8s1 with
              dragState := { c8s1.dragState with
                dragDistance := Real.sqrt (((375:ℝ) - 355) ^ 2 + ((200:ℝ) - 200) ^ 2),
                isDragging := true,
                velocity := Real.sqrt (((375:ℝ) - 355) ^ 2 + ((200:ℝ) - 200) ^ 2) / 16,
                currentAngle := RI.atan2 ((200:ℝ) - 200) ((375:ℝ) - 200),
                lastPosition := ⟨375, 200⟩ },
              bubbles := RI.updateOrbitalPositions ⟨200, 200⟩
                (RI.adjustDelta (RI.atan2 ((200:ℝ) - 200) ((375:ℝ) - 200) - 0) *
                  max 0.3 (100 / Real.sqrt (((355:ℝ) - 200) ^ 2 + ((200:ℝ) - 200) ^ 2)))
                [c8bubble] }
        else
          { c8s1 with dragState := { c8s1.dragState with
              dragDistance := Real.sqrt (((375:ℝ) - 355) ^ 2 + ((200:ℝ) - 200) ^ 2),
              lastPosition := ⟨375, 200⟩ } }) from rfl]
  rw [if_pos (by rw [hd20]; norm_num [RI.DRAG_THRESHOLD])]
  rw [hd20, ha2]
  rw [show (0:ℝ) - 0 = 0 by norm_num, adjustDelta_zero, zero_mul, updateZero_c8]
  rfl

lemma c8_step3 : RI.handleBubbleDrag c8s2 "a" ⟨360, 200⟩ = c8s3 := by
  have hd5 : Real.sqrt (((360:ℝ) - 355) ^ 2 + ((200:ℝ) - 200) ^ 2) = 5 := by
    rw [show ((360:ℝ) - 355) ^ 2 + ((200:ℝ) - 200) ^ 2 = 5 ^ 2 by norm_num]
    exact Real.sqrt_sq (by norm_num)
  rw [show RI.handleBubbleDrag c8s2 "a" ⟨360, 200⟩
      = (if Real.sqrt (((360:ℝ) - 355) ^ 2 + ((200:ℝ) - 200) ^ 2) > RI.DRAG_THRESHOLD then
          { c8s2 with
              dragState := { c8s2.dragState with
                dragDistance := Real.sqrt (((360:ℝ) - 355) ^ 2 + ((200:ℝ) - 200) ^ 2),
                isDragging := true,
                velocity := Real.sqrt (((360:ℝ) - 375) ^ 2 + ((200:ℝ) - 200) ^ 2) / 16,
                currentAngle := RI.atan2 ((200:ℝ) - 200) ((360:ℝ) - 200),
                lastPosition := ⟨360, 200⟩ },
              bubbles := RI.updateOrbitalPositions ⟨200, 200⟩
                (RI.adjustDelta (RI.atan2 ((200:ℝ) - 200) ((360:ℝ) - 200) - 0) *
                  max 0.3 (100 / Real.sqrt (((355:ℝ) - 200) ^ 2 + ((200:ℝ) - 200) ^ 2)))
                [c8bubble] }
        else
          { c8s2 with dragState := { c8s2.dragState with
              dragDistance := Real.sqrt (((360:ℝ) - 355) ^ 2 + ((200:ℝ) - 200) ^ 2),
              lastPosition := ⟨360, 200⟩ } }) from rfl]
  rw [if_neg (by rw [hd5]; norm_num [RI.DRAG_THRESHOLD])]
  rw [hd5]
  rfl

/-- C8 (counterexample to the claim as stated): starting from a quiescent
engine, three pans on the ring bubble — out to 20 px, then back to 5 px
from the start — leave the record with `isDragging = true` but
`dragDistance = 5 ≤ 15`: the claimed invariant fails after a pan
operation, because `dragDistance` is recomputed as the displacement from
the drag start on every pan while `isDragging` is never cleared by
`handleBubbleDrag`. -/
theorem c8_invariant_counterexample :
    c8final = c8s3 ∧ ¬ DragStateInvariant c8s3.dragState := by
  constructor
  · rw [c8final, c8_step1, c8_step2, c8_step3]
  · intro hinv
    have h2 := (hinv rfl).1
    rw [show c8s3.dragState.dragDistance = 5 from rfl] at h2
    norm_num [RI.DRAG_THRESHOLD] at h2

/-- C8 (amended): `dragging == true` always implies a non-null element
id, and the flag only becomes `true` on a pan whose displacement from the
drag start exceeds the 15 px threshold at that moment — but the stored
`dragDistance` is the current displacement from the start (recomputed on
every pan, not a cumulative path length), so it can fall back below the
threshold while `dragging` stays `true`.  The record is reset on every
gesture end (to zero, except `lastDragEnd`, which records the end time of
an active drag) and on every committed, non-suppressed selection (to
zero, `lastDragEnd` cleared). -/
theorem c8_drag_state_discipline :
    (∀ (s : RI.RIState) (bubbleId : String) (pos : RI.Pt),
        (s.dragState.isDragging = true → s.dragState.bubbleId ≠ none) →
        ((RI.handleBubbleDrag s bubbleId pos).dragState.isDragging = true →
          (RI.handleBubbleDrag s bubbleId pos).dragState.bubbleId ≠ none)) ∧
    (∀ (s : RI.RIState) (bubbleId : String) (pos : RI.Pt),
        s.dragState.isDragging = false →
        (RI.handleBubbleDrag s bubbleId pos).dragState.isDragging = true →
        (RI.handleBubbleDrag s bubbleId pos).dragState.dragDistance > RI.DRAG_THRESHOLD) ∧
    (∀ (s : RI.RIState) (now : ℝ),
        (RI.handleGestureEnd s now).dragState =
          { RI.DragState.zero with
              lastDragEnd := if s.dragState.isDragging then some now else none }) ∧
    (∀ (s : RI.RIState) (bubbleId : String) (now : ℝ),
        ¬(s.dragState.isDragging = true ∧ s.dragState.dragDistance > 5) →
        ¬(∃ t, s.dragState.lastDragEnd = some t ∧ t ≠ 0 ∧ now - t < 100) →
        (RI.selectBubble s bubbleId now).1.dragState = RI.DragState.zero) := by
  refine ⟨?_, ?_, ?_, ?_⟩
  · intro s bubbleId pos h hres
    rcases handleBubbleDrag_dragState_cases s bubbleId pos with ⟨hf, hb⟩ | ⟨hf, hb⟩ | ⟨hf, hb, hd⟩
    · rw [hb]; exact h (hf ▸ hres)
    · rw [hb]; exact Option.some_ne_none bubbleId
    · rw [hb]; exact Option.some_ne_none bubbleId
  · intro s bubbleId pos h0 hres
    rcases handleBubbleDrag_dragState_cases s bubbleId pos with ⟨hf, hb⟩ | ⟨hf, hb⟩ | ⟨hf, hb, hd⟩
    · rw [hf, h0] at hres; exact absurd hres (by simp)
    · rw [hf, h0] at hres; exact absurd hres (by simp)
    · exact hd
  · intro s now
    rfl
  · intro s bubbleId now h1 h2
    rw [RI.selectBubble, if_neg h1, if_neg h2]
    rw [RI.selectBubbleCommit]
    cases RI.lookupBubble { s with dragState := RI.DragState.zero }.bubbles bubbleId with
    | none => rfl
    | some b =>
        dsimp only
        split
        · rfl
        · rfl

/-- Witness for C8's amended theorem at a concrete input: on a quiescent
state neither suppression guard holds, and a selection resets the drag
record to its zero value. -/
theorem c8_drag_state_discipline_witness :
    ¬(c8w.dragState.isDragging = true ∧ c8w.dragState.dragDistance > 5) ∧
    ¬(∃ t, c8w.dragState.lastDragEnd = some t ∧ t ≠ 0 ∧ (0:ℝ) - t < 100) ∧
    (RI.selectBubble c8w "a" 0).1.dragState = RI.DragState.zero := by
  have h1 : ¬(c8w.dragState.isDragging = true ∧ c8w.dragState.dragDistance > 5) := by
    intro h
    simpa [c8w, RI.DragState.zero] using h.1
  have h2 : ¬(∃ t, c8w.dragState.lastDragEnd = some t ∧ t ≠ 0 ∧ (0:ℝ) - t < 100) := by
    rintro ⟨t, ht, h3⟩
    simp [c8w, RI.DragState.zero] at ht
  exact ⟨h1, h2, c8_drag_state_discipline.2.2.2 c8w "a" 0 h1 h2⟩

end Sol
